import Mathlib

/-!
# Plagiarism_App: the upload client `Front/src/App.jsx`

A shallow embedding of the component `App`: its seven `useState` cells, the
handlers `handleFileChange`, `handleSubmit`, `resetAnalysis`, the classifier
`getScoreSeverity` and the three render conditions, followed by the
properties of the specification that concern them.

Strings are sequences of UTF-16 code units, as in the engine, so that
`lastIndexOf` and `slice` count what the engine counts.

A handler is one transition: the setters it calls take effect together, in
the render that follows it, as React batches them. `handleSubmit` is two
transitions, one up to its `await` and one after it, since a render with the
loading flag set lies between them.
-/

namespace PlagiarismApp

/-! ## Strings -/

/-- A JavaScript string: its UTF-16 code units. -/
abbrev JsString := List Nat

/-- The one or two UTF-16 code units of a Unicode scalar value. -/
def utf16Char (c : Char) : List Nat :=
  if c.toNat < 0x10000 then [c.toNat]
  else [0xD800 + (c.toNat - 0x10000) / 0x400, 0xDC00 + (c.toNat - 0x10000) % 0x400]

/-- The code units of a list of scalar values. -/
def utf16Chars : List Char → JsString
  | [] => []
  | c :: cs => utf16Char c ++ utf16Chars cs

/-- The JavaScript string written as the literal `s`. -/
def utf16 (s : String) : JsString := utf16Chars s.data

/-- The code unit of `'.'`. -/
def dot : Nat := 46

/-- `String.prototype.lastIndexOf` for a one-unit search string: the index of
the last occurrence of `c`, or `-1`. -/
def lastIndexOf (c : Nat) : JsString → Int
  | [] => -1
  | x :: xs =>
    if 0 ≤ lastIndexOf c xs then lastIndexOf c xs + 1
    else if x = c then 0 else -1

/-- `n >>> 0`: the conversion of an integer to an unsigned 32-bit integer. -/
def toUint32 (n : Int) : Nat := (n % 2 ^ 32).toNat

/-- `String.prototype.slice(start)` with an integral `start`: a negative
`start` counts from the end, and the result runs to the end of the string. -/
def slice (s : JsString) (start : Int) : JsString :=
  if start < 0 then s.drop (s.length - start.natAbs) else s.drop start.toNat

/-- What `toLowerCase` makes of one code unit. The table holds the ASCII
capitals and the two non-ASCII units whose lower case has an ASCII unit in it:
U+0130 becomes the two units `i` U+0307, and U+212A (Kelvin) becomes `k`.
Every other ASCII unit is its own lower case. Every other non-ASCII unit is
mapped by the engine to a non-ASCII unit, one for one; it is kept as it is
here, which no comparison with an ASCII literal distinguishes. -/
def lowerUnit (u : Nat) : List Nat :=
  if 65 ≤ u ∧ u ≤ 90 then [u + 32]
  else if u = 0x130 then [0x69, 0x307]
  else if u = 0x212A then [0x6B]
  else [u]

/-- `String.prototype.toLowerCase`. -/
def toLowerCase : JsString → JsString
  | [] => []
  | u :: us => lowerUnit u ++ toLowerCase us

/-! ## Values -/

/-- The JavaScript values that reach the component: what a JSON payload can
hold, and `undefined` for a property that is absent. A number is an integer
here: a fractional number is truthy and passed on like a non-zero integer. -/
inductive JsVal where
  | undefined
  | null
  | bool (b : Bool)
  | num (n : Int)
  | str (s : JsString)
  | arr (xs : List JsVal)
  | obj (fields : List (JsString × JsVal))

/-- An object as its own properties, first binding of a key first. -/
abbrev JsObject := List (JsString × JsVal)

/-- ToBoolean: `undefined`, `null`, `false`, `0` and `''` are falsy. -/
def truthy : JsVal → Bool
  | .undefined => false
  | .null => false
  | .bool b => b
  | .num n => n != 0
  | .str s => !s.isEmpty
  | .arr _ => true
  | .obj _ => true

/-- The operator `a || b`. -/
def jsOr (a b : JsVal) : JsVal := if truthy a then a else b

/-- The test `v !== null`. -/
def notNull : JsVal → Bool
  | .null => false
  | _ => true

/-- The test `v === s` against a string `s`. -/
def strictEqStr : JsVal → JsString → Bool
  | .str t, s => t == s
  | _, _ => false

/-- Whether the object has the property `k`. -/
def hasField (o : JsObject) (k : JsString) : Bool := o.any (fun kv => kv.1 == k)

/-- The property read `o.k` on an object: `undefined` when `k` is absent. -/
def getField : JsObject → JsString → JsVal
  | [], _ => .undefined
  | (k', v) :: rest, k => if k' == k then v else getField rest k

/-- The property read `v.k` on a value that is neither `null` nor
`undefined`: only an object has the properties read in this component. -/
def getProp : JsVal → JsString → JsVal
  | .obj o, k => getField o k
  | _, _ => .undefined

/-- The optional chain `v?.k`. -/
def optChain : JsVal → JsString → JsVal
  | .undefined, _ => .undefined
  | .null, _ => .undefined
  | v, k => getProp v k

/-- Whether a property read on the value throws: `null` and `undefined` have
no properties. -/
def isNullish : JsVal → Bool
  | .undefined => true
  | .null => true
  | _ => false

/-- Whether the value has the property `k`, for the keys of a payload: an
object has the properties it lists, and no other value has one of them. -/
def hasProp : JsVal → JsString → Bool
  | .obj o, k => hasField o k
  | _, _ => false

/-- The comparison `v > 0`, where the conversion of `v` to a number is
`NaN` (`undefined`), `0` or `1` (`null`, a boolean) or `v` itself. It is `none`
for a string, an array and an object, whose conversion reads the text of a
number and is not embedded. -/
def gtZero : JsVal → Option Bool
  | .undefined => some false
  | .null => some false
  | .bool b => some b
  | .num n => some (decide (0 < n))
  | _ => none

/-- The test `v.length > 0`. An array and a string have their length, an
object has the `length` it lists, if any, and a boolean or a number has none
(`undefined > 0` is false). It is `none` where the read throws (`null`,
`undefined`) and where `gtZero` is. -/
def lengthPositive : JsVal → Option Bool
  | .undefined => none
  | .null => none
  | .arr xs => some (decide (0 < xs.length))
  | .str s => some (decide (0 < s.length))
  | .obj o => gtZero (getField o (utf16 "length"))
  | _ => some false

/-! ## Component state -/

/-- A `File` of the picker: its name and its content, which the component
never inspects. -/
structure JsFile where
  name : JsString
  content : List Nat
  deriving DecidableEq, Repr

/-- The object given to `setAnalysisDetails`. -/
structure AnalysisDetails where
  wordsProcessed : JsVal
  databasesChecked : JsVal
  analysisTime : JsVal

/-- The seven `useState` cells of `App`. -/
structure AppState where
  file : Option JsFile
  score : JsVal
  results : JsVal
  isLoading : Bool
  error : JsVal
  fileName : JsString
  analysisDetails : Option AnalysisDetails

/-- The initial values given to `useState`. -/
def initialState : AppState :=
  { file := none, score := .null, results := .arr [], isLoading := false,
    error := .null, fileName := [], analysisDetails := none }

/-- The part of the document `resetAnalysis` touches: the value of the first
`input[type="file"]`, when the document has one. -/
structure Dom where
  fileInput : Option JsString

/-! ## handleFileChange -/

/-- The array `validTypes`. -/
def validTypes : List JsString :=
  [utf16 ".pdf", utf16 ".doc", utf16 ".docx", utf16 ".txt"]

/-- The constant `fileExtension`:
`name.toLowerCase().slice((name.lastIndexOf(".") - 1 >>> 0) + 2)`. -/
def fileExtension (name : JsString) : JsString :=
  slice (toLowerCase name) ((toUint32 (lastIndexOf dot name - 1) : Int) + 2)

/-- The test `validTypes.includes('.' + fileExtension)`. -/
def isValidType (name : JsString) : Bool :=
  validTypes.contains (utf16 "." ++ fileExtension name)

/-- The message of the rejected selection. -/
def invalidTypeMessage : JsString := utf16 "Please upload a PDF, DOC, DOCX, or TXT file."

/-- The handler `handleFileChange`, given `e.target.files[0]` (absent when the
dialog is dismissed). -/
def handleFileChange (st : AppState) (selectedFile : Option JsFile) : AppState :=
  match selectedFile with
  | none => st
  | some f =>
    if !isValidType f.name then
      { st with error := .str invalidTypeMessage }
    else
      { st with file := some f, fileName := f.name, error := .null }

/-! ## handleSubmit -/

/-- The message of a submission without a file. -/
def noFileMessage : JsString := utf16 "Please select a research document to analyze."

/-- The first literal of the `catch` block. -/
def timeoutMessage : JsString := utf16 "Analysis timeout. Please try with a smaller document."

/-- The second literal of the `catch` block. -/
def unavailableMessage : JsString :=
  utf16 "Academic database temporarily unavailable. Please try again."

/-- The handler `handleSubmit` up to its `await`: without a file it sets the
error and returns; with one it sets the loading flag, clears error, score,
results and details, and posts the file (the second component). -/
def handleSubmitStart (st : AppState) : AppState × Option JsFile :=
  match st.file with
  | none => ({ st with error := .str noFileMessage }, none)
  | some f =>
    ({ st with isLoading := true, error := .null, score := .null,
               results := .arr [], analysisDetails := none }, some f)

/-- The rejection `err` of the request: its `code` and its `response`. -/
structure JsError where
  code : JsVal
  response : JsVal

/-- The read `err.response?.data?.message`. -/
def serverMessage (err : JsError) : JsVal :=
  optChain (optChain err.response (utf16 "data")) (utf16 "message")

/-- The constant `errorMessage`. The conditional operator binds weaker than
`||` and `===`, so the expression is
`(message || code === 'ECONNABORTED') ? timeout : unavailable`. -/
def errorMessage (err : JsError) : JsVal :=
  if truthy (jsOr (serverMessage err) (.bool (strictEqStr err.code (utf16 "ECONNABORTED"))))
  then .str timeoutMessage
  else .str unavailableMessage

/-- The `catch` block and the `finally` block, once the request has been
rejected with `err`. -/
def handleSubmitRejected (st : AppState) (err : JsError) : AppState :=
  { st with error := errorMessage err, isLoading := false }

/-- The `TypeError` of a property read on `null` or `undefined`, as the
`catch` block sees it: an error with no `code` and no `response`. -/
def typeError : JsError := { code := .undefined, response := .undefined }

/-- The rest of the `try` block and the `finally` block, once the request has
resolved with the payload `data` (the value of `res.data`); `analysisTime` is
the text built from the two clock readings. On a payload that is `null` or
`undefined` the first read, `res.data.overall_score`, throws before any setter
is called, and the `catch` block runs with that error. -/
def handleSubmitResolved (st : AppState) (data : JsVal) (analysisTime : JsString) :
    AppState :=
  if isNullish data then handleSubmitRejected st typeError
  else
    { st with
      score := getProp data (utf16 "overall_score")
      results := jsOr (getProp data (utf16 "similar_papers")) (.arr [])
      analysisDetails := some
        { wordsProcessed := jsOr (getProp data (utf16 "words_processed")) (.str (utf16 "N/A"))
          databasesChecked := jsOr (getProp data (utf16 "databases_checked"))
            (.arr [.str (utf16 "Crossref"), .str (utf16 "PubMed"), .str (utf16 "ArXiv")])
          analysisTime := jsOr (.str analysisTime) (.str (utf16 "N/A")) }
      isLoading := false }

/-! ## resetAnalysis -/

/-- The handler `resetAnalysis`: six setters, then the value of the file input
is emptied when the document has such an input. -/
def resetAnalysis (st : AppState) (dom : Dom) : AppState × Dom :=
  ({ st with file := none, fileName := [], score := .null, results := .arr [],
             error := .null, analysisDetails := none },
   { dom with fileInput := match dom.fileInput with
                           | some _ => some []
                           | none => none })

/-! ## getScoreSeverity -/

/-- The object returned by `getScoreSeverity`. -/
structure Severity where
  level : JsString
  color : JsString
  description : JsString
  deriving DecidableEq, Repr

/-- The function `getScoreSeverity` on an integral score. -/
def getScoreSeverity (score : Int) : Severity :=
  if score ≤ 15 then
    { level := utf16 "Low", color := utf16 "#10b981", description := utf16 "Original work" }
  else if score ≤ 30 then
    { level := utf16 "Moderate", color := utf16 "#f59e0b",
      description := utf16 "Minor similarities detected" }
  else if score ≤ 50 then
    { level := utf16 "High", color := utf16 "#ef4444",
      description := utf16 "Significant similarities" }
  else
    { level := utf16 "Critical", color := utf16 "#dc2626",
      description := utf16 "Potential academic integrity issue" }

/-! ## Render conditions -/

/-- The condition `error &&` of the error display. -/
def errorView (st : AppState) : Bool := truthy st.error

/-- The condition `isLoading &&` of the loading overlay. -/
def loadingView (st : AppState) : Bool := st.isLoading

/-- The condition `score !== null && !isLoading` of the results section. -/
def resultsView (st : AppState) : Bool := notNull st.score && !st.isLoading

/-- The condition `results.length > 0` inside the results section: the list of
similar works when it holds, the block "No Significant Similarities Found"
when it does not; `none` where `lengthPositive` is. -/
def similarWorksBranch (st : AppState) : Option Bool := lengthPositive st.results

/-- Whether the block "No Significant Similarities Found" is on screen: the
results section is rendered and `results.length > 0` is false. -/
def noSimilarityView (st : AppState) : Option Bool :=
  if resultsView st then (similarWorksBranch st).map (fun b => !b) else some false

/-- The file input is `disabled={isLoading}`. -/
def fileInputEnabled (st : AppState) : Bool := !st.isLoading

/-- The button "Begin Analysis" is `disabled={!file || isLoading}`. -/
def analyzeEnabled (st : AppState) : Bool := !(st.file.isNone || st.isLoading)

/-- The button "New Analysis" is rendered when `file || score !== null` and is
`disabled={isLoading}`. -/
def resetEnabled (st : AppState) : Bool :=
  (st.file.isSome || notNull st.score) && !st.isLoading

/-! ## The component as a transition system -/

/-- What can happen to the component: the user picks a file (or dismisses the
dialog), presses one of the two buttons, or the pending request settles. -/
inductive Event where
  | fileChange (selectedFile : Option JsFile)
  | submit
  | resolved (data : JsVal) (analysisTime : JsString)
  | rejected (err : JsError)
  | reset

/-- One event. A control that is disabled does not fire, and a request
settles only while it is pending, which is while `isLoading` holds. The
document is no part of the component state, so the one that `resetAnalysis`
writes to is left out here. -/
def step (st : AppState) : Event → Option AppState
  | .fileChange f => if fileInputEnabled st then some (handleFileChange st f) else none
  | .submit => if analyzeEnabled st then some (handleSubmitStart st).1 else none
  | .resolved data t => if st.isLoading then some (handleSubmitResolved st data t) else none
  | .rejected err => if st.isLoading then some (handleSubmitRejected st err) else none
  | .reset => if resetEnabled st then some (resetAnalysis st ⟨none⟩).1 else none

/-- A sequence of events, from `st`. -/
def run (st : AppState) : List Event → Option AppState
  | [] => some st
  | e :: es => (step st e).bind (fun st' => run st' es)

/-- The states the component can be in. -/
def Reachable (st : AppState) : Prop := ∃ es, run initialState es = some st

/-! ## The specification's words -/

/-- The substring after the last `.` of the name; empty for a name without
one (§4.1 of the specification). -/
def afterLastDot (name : JsString) : JsString :=
  if lastIndexOf dot name < 0 then [] else name.drop (lastIndexOf dot name + 1).toNat

/-- The extension of §4.1: the substring after the last `.`, lower-cased. -/
def specExtension (name : JsString) : JsString := toLowerCase (afterLastDot name)

/-- The allow-list of §4.1. -/
def allowedExtensions : List JsString :=
  [utf16 "pdf", utf16 "doc", utf16 "docx", utf16 "txt"]

/-- The state Idle of §4.5: nothing selected, nothing shown, nothing pending. -/
def isIdle (st : AppState) : Prop :=
  st.file = none ∧ st.fileName = [] ∧ st.score = .null ∧ st.results = .arr [] ∧
  st.error = .null ∧ st.analysisDetails = none ∧ loadingView st = false

/-- While a request is pending no error is set. -/
def LoadingClean (st : AppState) : Prop := st.isLoading = true → st.error = .null

/-! ## Example values -/

/-- A file named `thesis.pdf`. -/
def thesisPdf : JsFile := { name := utf16 "thesis.pdf", content := [37, 80, 68, 70] }

/-- A file named `setup.exe`. -/
def setupExe : JsFile := { name := utf16 "setup.exe", content := [77, 90] }

/-- A file named `revised.docx`. -/
def revisedDocx : JsFile := { name := utf16 "revised.docx", content := [80, 75, 3, 4] }

/-- The state while the analysis of `thesis.pdf` is pending. -/
def loadingThesis : AppState :=
  (handleSubmitStart (handleFileChange initialState (some thesisPdf))).1

/-- The state that shows a report with score 42 for `thesis.pdf`. -/
def reportThesis : AppState :=
  handleSubmitResolved loadingThesis (.obj [(utf16 "overall_score", .num 42)])
    (utf16 "1.25 seconds")

/-- A rejection that is not a timeout and carries the server's message
`File too large`. -/
def serverRefusal : JsError :=
  { code := .str (utf16 "ERR_BAD_REQUEST")
    response := .obj [(utf16 "status", .num 413),
                      (utf16 "data", .obj [(utf16 "message", .str (utf16 "File too large"))])] }

/-! ## Lemmas on strings -/

theorem lastIndexOf_ge (c : Nat) (s : JsString) : -1 ≤ lastIndexOf c s := by
  induction s with
  | nil => simp [lastIndexOf]
  | cons x xs ih =>
    simp only [lastIndexOf]
    split_ifs <;> omega

theorem lastIndexOf_lt (c : Nat) (s : JsString) : lastIndexOf c s < s.length := by
  induction s with
  | nil => simp [lastIndexOf]
  | cons x xs ih =>
    simp only [lastIndexOf, List.length_cons, Nat.cast_add, Nat.cast_one]
    split_ifs <;> omega

theorem lastIndexOf_of_not_mem (c : Nat) (s : JsString) (h : c ∉ s) :
    lastIndexOf c s = -1 := by
  induction s with
  | nil => rfl
  | cons x xs ih =>
    simp only [List.mem_cons, not_or] at h
    have hx : ¬ x = c := fun e => h.1 e.symm
    simp [lastIndexOf, ih h.2, hx]

theorem lastIndexOf_nonneg_of_mem (c : Nat) (s : JsString) (h : c ∈ s) :
    0 ≤ lastIndexOf c s := by
  induction s with
  | nil => simp at h
  | cons x xs ih =>
    simp only [lastIndexOf]
    by_cases hxs : 0 ≤ lastIndexOf c xs
    · rw [if_pos hxs]
      omega
    · rw [if_neg hxs]
      have hc : c ∉ xs := fun hm => hxs (ih hm)
      have hx : x = c := by
        rcases List.mem_cons.1 h with e | e
        · exact e.symm
        · exact absurd e hc
      simp [hx]

theorem lastIndexOf_split (c : Nat) (s : JsString) (h : 0 ≤ lastIndexOf c s) :
    ∃ pre suf, s = pre ++ c :: suf ∧ c ∉ suf ∧ lastIndexOf c s = pre.length := by
  induction s with
  | nil => simp [lastIndexOf] at h
  | cons x xs ih =>
    by_cases hxs : 0 ≤ lastIndexOf c xs
    · obtain ⟨pre, suf, hs, hn, hi⟩ := ih hxs
      refine ⟨x :: pre, suf, by rw [hs]; rfl, hn, ?_⟩
      simp only [lastIndexOf]
      rw [if_pos hxs, hi]
      simp
    · simp only [lastIndexOf] at h ⊢
      rw [if_neg hxs] at h ⊢
      by_cases hx : x = c
      · refine ⟨[], xs, by simp [hx], ?_, by simp [hx]⟩
        exact fun hmem => hxs (lastIndexOf_nonneg_of_mem c xs hmem)
      · simp [hx] at h

theorem toLowerCase_append (a b : JsString) :
    toLowerCase (a ++ b) = toLowerCase a ++ toLowerCase b := by
  induction a with
  | nil => rfl
  | cons x xs ih => simp [toLowerCase, ih]

theorem lowerUnit_length_le (u : Nat) : (lowerUnit u).length ≤ 2 := by
  unfold lowerUnit
  split_ifs <;> simp

theorem lowerUnit_length (u : Nat) (h : u ≠ 0x130) : (lowerUnit u).length = 1 := by
  unfold lowerUnit
  split_ifs <;> simp_all

theorem toLowerCase_length_le (s : JsString) : (toLowerCase s).length ≤ 2 * s.length := by
  induction s with
  | nil => simp [toLowerCase]
  | cons x xs ih =>
    have := lowerUnit_length_le x
    simp only [toLowerCase, List.length_append, List.length_cons]
    omega

theorem toLowerCase_length (s : JsString) (h : 0x130 ∉ s) :
    (toLowerCase s).length = s.length := by
  induction s with
  | nil => rfl
  | cons x xs ih =>
    simp only [List.mem_cons, not_or] at h
    have := lowerUnit_length x (fun e => h.1 e.symm)
    simp only [toLowerCase, List.length_append, List.length_cons, ih h.2]
    omega

theorem toUint32_of_lt (n : Nat) (h : n < 2 ^ 32) : toUint32 (n : Int) = n := by
  unfold toUint32
  have h' : ((n : Int) % 2 ^ 32) = n := Int.emod_eq_of_lt (by omega) (by exact_mod_cast h)
  rw [h']
  simp

theorem toUint32_neg_one : toUint32 (-1) = 4294967295 := by decide

theorem toUint32_neg_two : toUint32 (-2) = 4294967294 := by decide

theorem slice_of_length_le (s : JsString) (n : Nat) (h : s.length ≤ n) :
    slice s (n : Int) = [] := by
  unfold slice
  have : ¬ ((n : Int) < 0) := by omega
  rw [if_neg this]
  simp [List.drop_eq_nil_iff, h]

theorem slice_natCast (s : JsString) (n : Nat) : slice s (n : Int) = s.drop n := by
  unfold slice
  have : ¬ ((n : Int) < 0) := by omega
  rw [if_neg this]
  simp

/-- Without a `.` in a name shorter than 2³¹ units, the offset is 2³² and the
extension is empty. -/
theorem fileExtension_of_no_dot (name : JsString) (hdot : dot ∉ name)
    (hlen : name.length < 2 ^ 31) : fileExtension name = [] := by
  unfold fileExtension
  rw [lastIndexOf_of_not_mem dot name hdot]
  have h2 : ((-1 : Int) - 1) = -2 := by norm_num
  rw [h2, toUint32_neg_two]
  have hl := toLowerCase_length_le name
  have : ((4294967294 : Nat) : Int) + 2 = ((4294967296 : Nat) : Int) := by norm_num
  rw [this]
  apply slice_of_length_le
  omega

/-- With the last `.` first in a name shorter than 2³¹ units, the offset is
2³² + 1 and the extension is empty. -/
theorem fileExtension_of_dot_first (name : JsString) (hdot : lastIndexOf dot name = 0)
    (hlen : name.length < 2 ^ 31) : fileExtension name = [] := by
  unfold fileExtension
  rw [hdot]
  have h2 : ((0 : Int) - 1) = -1 := by norm_num
  rw [h2, toUint32_neg_one]
  have hl := toLowerCase_length_le name
  have : ((4294967295 : Nat) : Int) + 2 = ((4294967297 : Nat) : Int) := by norm_num
  rw [this]
  apply slice_of_length_le
  omega


theorem afterLastDot_split (pre suf : JsString) (name : JsString)
    (hs : name = pre ++ dot :: suf) (hi : lastIndexOf dot name = pre.length) :
    afterLastDot name = suf := by
  unfold afterLastDot
  rw [hi]
  have h0 : ¬ ((pre.length : Int) < 0) := by omega
  rw [if_neg h0]
  have h1 : ((pre.length : Int) + 1).toNat = pre.length + 1 := by omega
  rw [h1, hs]
  simp

/-- With the last `.` at index 1 or later, in a name shorter than 2³¹ units
whose lower-casing keeps every unit in place (no U+0130), the offset is the
index after the `.` and the extension is the one of §4.1. -/
theorem fileExtension_eq_specExtension (name : JsString) (hdot : 1 ≤ lastIndexOf dot name)
    (hlen : name.length < 2 ^ 31) (hI : 0x130 ∉ name) :
    fileExtension name = specExtension name := by
  obtain ⟨pre, suf, hs, _, hi⟩ := lastIndexOf_split dot name (by omega)
  have hpos : 1 ≤ pre.length := by omega
  have hplen : pre.length < 2 ^ 31 := by
    have : name.length = pre.length + (suf.length + 1) := by rw [hs]; simp
    omega
  have hIpre : 0x130 ∉ pre := by
    intro hm
    exact hI (by rw [hs]; exact List.mem_append_left _ hm)
  unfold specExtension
  rw [afterLastDot_split pre suf name hs hi]
  unfold fileExtension
  rw [hi]
  have hsub : ((pre.length : Int) - 1) = ((pre.length - 1 : Nat) : Int) := by omega
  rw [hsub, toUint32_of_lt _ (by omega)]
  have hadd : (((pre.length - 1 : Nat) : Int) + 2) = ((pre.length + 1 : Nat) : Int) := by omega
  rw [hadd, slice_natCast, hs, toLowerCase_append]
  have hl := toLowerCase_length pre hIpre
  have hd : toLowerCase (dot :: suf) = dot :: toLowerCase suf := rfl
  rw [hd, List.drop_append_eq_append_drop, List.drop_eq_nil_of_le (by omega), hl]
  simp

theorem isValidType_iff (name : JsString) :
    isValidType name = true ↔ fileExtension name ∈ allowedExtensions := by
  have h1 : utf16 ".pdf" = 46 :: utf16 "pdf" := rfl
  have h2 : utf16 ".doc" = 46 :: utf16 "doc" := rfl
  have h3 : utf16 ".docx" = 46 :: utf16 "docx" := rfl
  have h4 : utf16 ".txt" = 46 :: utf16 "txt" := rfl
  have h5 : utf16 "." = [46] := rfl
  simp [isValidType, validTypes, allowedExtensions, h1, h2, h3, h4, h5]

theorem nil_not_allowed : ([] : JsString) ∉ allowedExtensions := by decide

/-- The extension check in the words of §4.1, for a name shorter than 2³¹
units without U+0130: it passes exactly when the last `.` is not the first unit
and the extension is on the allow-list. -/
theorem isValidType_iff_spec (name : JsString) (hlen : name.length < 2 ^ 31)
    (hI : 0x130 ∉ name) :
    isValidType name = true ↔
      (1 ≤ lastIndexOf dot name ∧ specExtension name ∈ allowedExtensions) := by
  rw [isValidType_iff]
  by_cases h1 : 1 ≤ lastIndexOf dot name
  · rw [fileExtension_eq_specExtension name h1 hlen hI]
    exact ⟨fun h => ⟨h1, h⟩, fun h => h.2⟩
  · have hext : fileExtension name = [] := by
      by_cases h0 : lastIndexOf dot name = 0
      · exact fileExtension_of_dot_first name h0 hlen
      · have hneg : ¬ 0 ≤ lastIndexOf dot name := by omega
        exact fileExtension_of_no_dot name
          (fun hm => hneg (lastIndexOf_nonneg_of_mem dot name hm)) hlen
    rw [hext]
    exact ⟨fun h => absurd h nil_not_allowed, fun h => absurd h.1 h1⟩

/-! ## Lemmas on values -/

theorem strictEqStr_eq_true (v : JsVal) (s : JsString) :
    strictEqStr v s = true ↔ v = .str s := by
  cases v <;> simp [strictEqStr]

theorem getField_of_hasField_false (o : JsObject) (k : JsString)
    (h : hasField o k = false) : getField o k = .undefined := by
  induction o with
  | nil => rfl
  | cons kv rest ih =>
    obtain ⟨k', v⟩ := kv
    simp only [hasField, List.any_cons, Bool.or_eq_false_iff] at h
    simp only [getField, h.1, Bool.false_eq_true, if_false]
    exact ih h.2

theorem getProp_of_hasProp_false (v : JsVal) (k : JsString)
    (h : hasProp v k = false) : getProp v k = .undefined := by
  cases v with
  | obj o => exact getField_of_hasField_false o k h
  | _ => rfl

theorem handleSubmitResolved_of_payload (st : AppState) (data : JsVal) (t : JsString)
    (h : isNullish data = false) :
    handleSubmitResolved st data t =
      { st with
        score := getProp data (utf16 "overall_score")
        results := jsOr (getProp data (utf16 "similar_papers")) (.arr [])
        analysisDetails := some
          { wordsProcessed := jsOr (getProp data (utf16 "words_processed")) (.str (utf16 "N/A"))
            databasesChecked := jsOr (getProp data (utf16 "databases_checked"))
              (.arr [.str (utf16 "Crossref"), .str (utf16 "PubMed"), .str (utf16 "ArXiv")])
            analysisTime := jsOr (.str t) (.str (utf16 "N/A")) }
        isLoading := false } := by
  simp [handleSubmitResolved, h]

theorem handleSubmitResolved_of_nullish (st : AppState) (data : JsVal) (t : JsString)
    (h : isNullish data = true) :
    handleSubmitResolved st data t =
      { st with error := .str unavailableMessage, isLoading := false } := by
  simp only [handleSubmitResolved, h, if_true]
  rfl

theorem jsOr_undefined (d : JsVal) : jsOr .undefined d = d := rfl

theorem jsOr_of_truthy (v d : JsVal) (h : truthy v = true) : jsOr v d = v := by
  simp [jsOr, h]

theorem jsOr_of_falsy (v d : JsVal) (h : truthy v = false) : jsOr v d = d := by
  simp [jsOr, h]

/-! ## getScoreSeverity -/

/-- C2: for every integer score, `getScoreSeverity` gives Low / Original work
up to 15, Moderate / Minor similarities detected from 16 to 30, High /
Significant similarities from 31 to 50, and Critical / Potential academic
integrity issue above 50; the six boundary values 15, 16, 30, 31, 50, 51 fall
as tabulated. -/
theorem getScoreSeverity_table (score : Int) :
    (score ≤ 15 →
      (getScoreSeverity score).level = utf16 "Low" ∧
      (getScoreSeverity score).description = utf16 "Original work") ∧
    (16 ≤ score ∧ score ≤ 30 →
      (getScoreSeverity score).level = utf16 "Moderate" ∧
      (getScoreSeverity score).description = utf16 "Minor similarities detected") ∧
    (31 ≤ score ∧ score ≤ 50 →
      (getScoreSeverity score).level = utf16 "High" ∧
      (getScoreSeverity score).description = utf16 "Significant similarities") ∧
    (50 < score →
      (getScoreSeverity score).level = utf16 "Critical" ∧
      (getScoreSeverity score).description = utf16 "Potential academic integrity issue") ∧
    (getScoreSeverity 15).level = utf16 "Low" ∧
    (getScoreSeverity 16).level = utf16 "Moderate" ∧
    (getScoreSeverity 30).level = utf16 "Moderate" ∧
    (getScoreSeverity 31).level = utf16 "High" ∧
    (getScoreSeverity 50).level = utf16 "High" ∧
    (getScoreSeverity 51).level = utf16 "Critical" := by
  refine ⟨?_, ?_, ?_, ?_, by decide, by decide, by decide, by decide, by decide, by decide⟩
  · intro h
    simp [getScoreSeverity, h]
  · rintro ⟨h1, h2⟩
    have h : ¬ score ≤ 15 := by omega
    simp [getScoreSeverity, h, h2]
  · rintro ⟨h1, h2⟩
    have h : ¬ score ≤ 15 := by omega
    have h' : ¬ score ≤ 30 := by omega
    simp [getScoreSeverity, h, h', h2]
  · intro h1
    have h : ¬ score ≤ 15 := by omega
    have h' : ¬ score ≤ 30 := by omega
    have h'' : ¬ score ≤ 50 := by omega
    simp [getScoreSeverity, h, h', h'']

/-- The table of C2 at the score 42, which lies between 31 and 50. -/
theorem getScoreSeverity_table_witness :
    (31 : Int) ≤ 42 ∧ (42 : Int) ≤ 50 ∧
    (getScoreSeverity 42).level = utf16 "High" ∧
    (getScoreSeverity 42).description = utf16 "Significant similarities" :=
  ⟨by decide, by decide, (getScoreSeverity_table 42).2.2.1 ⟨by decide, by decide⟩⟩

/-! ## The catch block of handleSubmit -/

/-- C3, at the rejection `serverRefusal`: the request failed with a code other
than `ECONNABORTED` and the server sent the message `File too large`, yet the
error set by `handleSubmit` is the timeout literal and not that message. -/
theorem handleSubmitRejected_drops_server_message :
    serverRefusal.code ≠ .str (utf16 "ECONNABORTED") ∧
    serverMessage serverRefusal = .str (utf16 "File too large") ∧
    (handleSubmitRejected loadingThesis serverRefusal).error =
      .str (utf16 "Analysis timeout. Please try with a smaller document.") ∧
    (handleSubmitRejected loadingThesis serverRefusal).error ≠
      serverMessage serverRefusal := by
  refine ⟨?_, rfl, rfl, ?_⟩
  · intro h
    have h' := JsVal.str.inj h
    revert h'
    decide
  · intro h
    have h' : (JsVal.str timeoutMessage) = .str (utf16 "File too large") := h
    have h'' := JsVal.str.inj h'
    revert h''
    decide

/-- C4: for every failed request without a server message (absent, or falsy),
the error set by `handleSubmit` is the timeout literal when the code is
`ECONNABORTED` and the fallback literal when it is not. -/
theorem handleSubmitRejected_without_message (st : AppState) (err : JsError)
    (hmsg : truthy (serverMessage err) = false) :
    (err.code = .str (utf16 "ECONNABORTED") →
      (handleSubmitRejected st err).error =
        .str (utf16 "Analysis timeout. Please try with a smaller document.")) ∧
    (err.code ≠ .str (utf16 "ECONNABORTED") →
      (handleSubmitRejected st err).error =
        .str (utf16 "Academic database temporarily unavailable. Please try again.")) := by
  constructor
  · intro hc
    have h := (strictEqStr_eq_true err.code (utf16 "ECONNABORTED")).2 hc
    simp only [handleSubmitRejected, errorMessage, jsOr_of_falsy _ _ hmsg, h]
    rfl
  · intro hc
    have h : strictEqStr err.code (utf16 "ECONNABORTED") = false := by
      cases hb : strictEqStr err.code (utf16 "ECONNABORTED")
      · rfl
      · exact absurd ((strictEqStr_eq_true _ _).1 hb) hc
    simp only [handleSubmitRejected, errorMessage, jsOr_of_falsy _ _ hmsg, h]
    rfl

/-- C4 at a timeout without a response: the timeout literal is set. -/
theorem handleSubmitRejected_without_message_witness :
    truthy (serverMessage ⟨.str (utf16 "ECONNABORTED"), .undefined⟩) = false ∧
    (handleSubmitRejected loadingThesis ⟨.str (utf16 "ECONNABORTED"), .undefined⟩).error =
      .str (utf16 "Analysis timeout. Please try with a smaller document.") :=
  ⟨rfl, (handleSubmitRejected_without_message loadingThesis
    ⟨.str (utf16 "ECONNABORTED"), .undefined⟩ rfl).1 rfl⟩

/-! ## The response mapping of handleSubmit -/

/-- C5 as stated fails at two successful responses. With the body `null`,
which has none of the three fields, the read of `res.data.overall_score`
throws: no details are set, so `wordsProcessed` is not `'N/A'`, the fallback
error is shown and no results section is rendered. With the payload
`{overall_score: null}` the results are empty, and the score is null, so the
results section and its block "No Significant Similarities Found" are not
rendered. -/
theorem handleSubmitResolved_null_payload :
    (hasProp .null (utf16 "similar_papers") = false ∧
     hasProp .null (utf16 "words_processed") = false ∧
     hasProp .null (utf16 "databases_checked") = false ∧
     (handleSubmitResolved loadingThesis .null (utf16 "0.80 seconds")).analysisDetails.map
        (fun d => d.wordsProcessed) = none ∧
     (handleSubmitResolved loadingThesis .null (utf16 "0.80 seconds")).analysisDetails.map
        (fun d => d.wordsProcessed) ≠ some (.str (utf16 "N/A")) ∧
     (handleSubmitResolved loadingThesis .null (utf16 "0.80 seconds")).error =
        .str (utf16 "Academic database temporarily unavailable. Please try again.") ∧
     noSimilarityView (handleSubmitResolved loadingThesis .null (utf16 "0.80 seconds")) =
        some false) ∧
    (hasProp (.obj [(utf16 "overall_score", .null)]) (utf16 "similar_papers") = false ∧
     (handleSubmitResolved loadingThesis (.obj [(utf16 "overall_score", .null)])
        (utf16 "0.80 seconds")).results = .arr [] ∧
     resultsView (handleSubmitResolved loadingThesis (.obj [(utf16 "overall_score", .null)])
        (utf16 "0.80 seconds")) = false ∧
     noSimilarityView (handleSubmitResolved loadingThesis (.obj [(utf16 "overall_score", .null)])
        (utf16 "0.80 seconds")) = some false) := by
  refine ⟨⟨rfl, rfl, rfl, rfl, ?_, rfl, rfl⟩, ⟨by decide, rfl, rfl, rfl⟩⟩
  intro h
  have h' : (none : Option JsVal) = some (JsVal.str (utf16 "N/A")) := h
  cases h'

/-- C5, amended: for every successful response whose body is neither `null`
nor `undefined`, a payload without `similar_papers` maps to the empty results,
and the results section, which is rendered exactly when the received
`overall_score` is not null, then shows "No Significant Similarities Found"
and not the list; a payload without `words_processed` maps to `'N/A'`; a
payload without `databases_checked` maps to `['Crossref', 'PubMed', 'ArXiv']`.
For a body that is `null` or `undefined` nothing is mapped: the fallback error
is set and the loading flag cleared. -/
theorem handleSubmitResolved_defaults (st : AppState) (data : JsVal) (t : JsString) :
    (isNullish data = false →
      (hasProp data (utf16 "similar_papers") = false →
        (handleSubmitResolved st data t).results = .arr [] ∧
        similarWorksBranch (handleSubmitResolved st data t) = some false ∧
        resultsView (handleSubmitResolved st data t) =
          notNull (getProp data (utf16 "overall_score")) ∧
        noSimilarityView (handleSubmitResolved st data t) =
          some (notNull (getProp data (utf16 "overall_score")))) ∧
      (hasProp data (utf16 "words_processed") = false →
        (handleSubmitResolved st data t).analysisDetails.map (fun d => d.wordsProcessed) =
          some (.str (utf16 "N/A"))) ∧
      (hasProp data (utf16 "databases_checked") = false →
        (handleSubmitResolved st data t).analysisDetails.map (fun d => d.databasesChecked) =
          some (.arr [.str (utf16 "Crossref"), .str (utf16 "PubMed"), .str (utf16 "ArXiv")]))) ∧
    (isNullish data = true →
      handleSubmitResolved st data t =
        { st with
          error := .str (utf16 "Academic database temporarily unavailable. Please try again.")
          isLoading := false }) := by
  constructor
  · intro hn
    rw [handleSubmitResolved_of_payload st data t hn]
    refine ⟨?_, ?_, ?_⟩
    · intro h
      have hu := getProp_of_hasProp_false data _ h
      refine ⟨?_, ?_, ?_, ?_⟩
      · simp only [hu, jsOr_undefined]
      · simp only [similarWorksBranch, hu, jsOr_undefined]
        rfl
      · simp [resultsView]
      · simp only [noSimilarityView, similarWorksBranch, resultsView, hu, jsOr_undefined,
          Bool.not_false, Bool.and_true]
        cases hs : notNull (getProp data (utf16 "overall_score"))
        · simp
        · simp [lengthPositive]
    · intro h
      simp only [getProp_of_hasProp_false data _ h, jsOr_undefined, Option.map_some']
    · intro h
      simp only [getProp_of_hasProp_false data _ h, jsOr_undefined, Option.map_some']
  · intro hn
    exact handleSubmitResolved_of_nullish st data t hn

/-- C5, amended, at the payload `{overall_score: 12}`, which has none of the
three optional fields: the results are empty and the block "No Significant
Similarities Found" is rendered. -/
theorem handleSubmitResolved_defaults_witness :
    isNullish (.obj [(utf16 "overall_score", .num 12)]) = false ∧
    hasProp (.obj [(utf16 "overall_score", .num 12)]) (utf16 "similar_papers") = false ∧
    (handleSubmitResolved loadingThesis (.obj [(utf16 "overall_score", .num 12)])
      (utf16 "0.80 seconds")).results = .arr [] ∧
    noSimilarityView (handleSubmitResolved loadingThesis (.obj [(utf16 "overall_score", .num 12)])
      (utf16 "0.80 seconds")) = some true :=
  ⟨rfl, by decide,
   (((handleSubmitResolved_defaults loadingThesis (.obj [(utf16 "overall_score", .num 12)])
      (utf16 "0.80 seconds")).1 rfl).1 (by decide)).1,
   (((handleSubmitResolved_defaults loadingThesis (.obj [(utf16 "overall_score", .num 12)])
      (utf16 "0.80 seconds")).1 rfl).1 (by decide)).2.2.2.trans rfl⟩

/-- C9 as stated fails at the payload `{overall_score: 42, words_processed: 0}`:
the field `words_processed` is present with the value 0, and the mapped
`wordsProcessed` is `'N/A'`, not 0. -/
theorem handleSubmitResolved_zero_words :
    hasProp (.obj [(utf16 "overall_score", .num 42), (utf16 "words_processed", .num 0)])
      (utf16 "words_processed") = true ∧
    getProp (.obj [(utf16 "overall_score", .num 42), (utf16 "words_processed", .num 0)])
      (utf16 "words_processed") = .num 0 ∧
    (handleSubmitResolved loadingThesis
      (.obj [(utf16 "overall_score", .num 42), (utf16 "words_processed", .num 0)])
      (utf16 "1.25 seconds")).analysisDetails.map (fun d => d.wordsProcessed) =
        some (.str (utf16 "N/A")) ∧
    (handleSubmitResolved loadingThesis
      (.obj [(utf16 "overall_score", .num 42), (utf16 "words_processed", .num 0)])
      (utf16 "1.25 seconds")).analysisDetails.map (fun d => d.wordsProcessed) ≠
        some (.num 0) := by
  refine ⟨by decide, rfl, rfl, ?_⟩
  intro h
  have h' : some (JsVal.str (utf16 "N/A")) = some (JsVal.num 0) := h
  cases h'

/-- C9, amended: for every successful response whose body is neither `null`
nor `undefined`, the mapped score is the received `overall_score`, whatever it
is; each of `similar_papers`, `words_processed`, `databases_checked` is mapped
to the received value when that value is truthy, and to its default when the
field is absent or its value is falsy (`null`, `false`, `0`, `''`). For a body
that is `null` or `undefined` nothing is mapped: score, results and details
stay as they were, the fallback error is set and the loading flag cleared. -/
theorem handleSubmitResolved_mapping (st : AppState) (data : JsVal) (t : JsString) :
    (isNullish data = false →
      (handleSubmitResolved st data t).score = getProp data (utf16 "overall_score") ∧
      (truthy (getProp data (utf16 "similar_papers")) = true →
        (handleSubmitResolved st data t).results = getProp data (utf16 "similar_papers")) ∧
      (truthy (getProp data (utf16 "words_processed")) = true →
        (handleSubmitResolved st data t).analysisDetails.map (fun d => d.wordsProcessed) =
          some (getProp data (utf16 "words_processed"))) ∧
      (truthy (getProp data (utf16 "databases_checked")) = true →
        (handleSubmitResolved st data t).analysisDetails.map (fun d => d.databasesChecked) =
          some (getProp data (utf16 "databases_checked"))) ∧
      (truthy (getProp data (utf16 "similar_papers")) = false →
        (handleSubmitResolved st data t).results = .arr []) ∧
      (truthy (getProp data (utf16 "words_processed")) = false →
        (handleSubmitResolved st data t).analysisDetails.map (fun d => d.wordsProcessed) =
          some (.str (utf16 "N/A"))) ∧
      (truthy (getProp data (utf16 "databases_checked")) = false →
        (handleSubmitResolved st data t).analysisDetails.map (fun d => d.databasesChecked) =
          some (.arr [.str (utf16 "Crossref"), .str (utf16 "PubMed"), .str (utf16 "ArXiv")]))) ∧
    (isNullish data = true →
      handleSubmitResolved st data t =
        { st with
          error := .str (utf16 "Academic database temporarily unavailable. Please try again.")
          isLoading := false }) := by
  constructor
  · intro hn
    rw [handleSubmitResolved_of_payload st data t hn]
    refine ⟨rfl, ?_, ?_, ?_, ?_, ?_, ?_⟩
    · intro h
      simp only [jsOr_of_truthy _ _ h]
    · intro h
      simp only [jsOr_of_truthy _ _ h, Option.map_some']
    · intro h
      simp only [jsOr_of_truthy _ _ h, Option.map_some']
    · intro h
      simp only [jsOr_of_falsy _ _ h]
    · intro h
      simp only [jsOr_of_falsy _ _ h, Option.map_some']
    · intro h
      simp only [jsOr_of_falsy _ _ h, Option.map_some']
  · intro hn
    exact handleSubmitResolved_of_nullish st data t hn

/-- C9, amended, at the payload `{overall_score: 130, words_processed: 5120}`:
the out-of-range score 130 and the word count 5120 are passed on as received. -/
theorem handleSubmitResolved_mapping_witness :
    isNullish (.obj [(utf16 "overall_score", .num 130), (utf16 "words_processed", .num 5120)]) =
      false ∧
    truthy (getProp
      (.obj [(utf16 "overall_score", .num 130), (utf16 "words_processed", .num 5120)])
      (utf16 "words_processed")) = true ∧
    (handleSubmitResolved loadingThesis
      (.obj [(utf16 "overall_score", .num 130), (utf16 "words_processed", .num 5120)])
      (utf16 "2.00 seconds")).score = .num 130 ∧
    (handleSubmitResolved loadingThesis
      (.obj [(utf16 "overall_score", .num 130), (utf16 "words_processed", .num 5120)])
      (utf16 "2.00 seconds")).analysisDetails.map (fun d => d.wordsProcessed) =
        some (.num 5120) :=
  ⟨rfl, rfl,
   ((handleSubmitResolved_mapping loadingThesis
      (.obj [(utf16 "overall_score", .num 130), (utf16 "words_processed", .num 5120)])
      (utf16 "2.00 seconds")).1 rfl).1.trans rfl,
   (((handleSubmitResolved_mapping loadingThesis
      (.obj [(utf16 "overall_score", .num 130), (utf16 "words_processed", .num 5120)])
      (utf16 "2.00 seconds")).1 rfl).2.2.1 rfl).trans rfl⟩

/-! ## The frame of handleFileChange -/

/-- C6 as stated fails in the state `reportThesis`, which shows a report with
score 42: the file `revised.docx` is accepted and becomes the selection, and
the score is still 42, so the report stays on screen. -/
theorem handleFileChange_keeps_report :
    isValidType revisedDocx.name = true ∧
    (handleFileChange reportThesis (some revisedDocx)).file = some revisedDocx ∧
    (handleFileChange reportThesis (some revisedDocx)).score = .num 42 ∧
    (handleFileChange reportThesis (some revisedDocx)).score ≠ .null ∧
    resultsView (handleFileChange reportThesis (some revisedDocx)) = true := by
  refine ⟨by decide, rfl, rfl, ?_, rfl⟩
  intro h
  have h' : JsVal.num 42 = JsVal.null := h
  cases h'

/-- C6, amended: for every prior state and every file that passes the
extension check, after `handleFileChange` the selected file and `fileName` are
the new file's and `error` is null, while `score`, `results`,
`analysisDetails` and the loading flag are what they were. -/
theorem handleFileChange_accept_frame (st : AppState) (f : JsFile)
    (h : isValidType f.name = true) :
    (handleFileChange st (some f)).file = some f ∧
    (handleFileChange st (some f)).fileName = f.name ∧
    (handleFileChange st (some f)).error = .null ∧
    (handleFileChange st (some f)).score = st.score ∧
    (handleFileChange st (some f)).results = st.results ∧
    (handleFileChange st (some f)).analysisDetails = st.analysisDetails ∧
    (handleFileChange st (some f)).isLoading = st.isLoading := by
  simp [handleFileChange, h]

/-- C6, amended, at `revised.docx` selected over the report of `thesis.pdf`. -/
theorem handleFileChange_accept_frame_witness :
    isValidType revisedDocx.name = true ∧
    (handleFileChange reportThesis (some revisedDocx)).fileName = utf16 "revised.docx" ∧
    (handleFileChange reportThesis (some revisedDocx)).score = reportThesis.score :=
  ⟨by decide,
   (handleFileChange_accept_frame reportThesis revisedDocx (by decide)).2.1,
   (handleFileChange_accept_frame reportThesis revisedDocx (by decide)).2.2.2.1⟩

/-! ## resetAnalysis -/

/-- C7 as stated fails in the Loading state `loadingThesis`: `resetAnalysis`
has no `setIsLoading`, so the loading view is still shown afterwards and the
state is not Idle. -/
theorem resetAnalysis_keeps_loading :
    loadingView loadingThesis = true ∧
    loadingView (resetAnalysis loadingThesis ⟨some (utf16 "C:\\fakepath\\thesis.pdf")⟩).1 = true ∧
    ¬ isIdle (resetAnalysis loadingThesis ⟨some (utf16 "C:\\fakepath\\thesis.pdf")⟩).1 := by
  refine ⟨rfl, rfl, ?_⟩
  intro h
  have h' := h.2.2.2.2.2.2
  revert h'
  decide

/-- C7, amended: for every state without a pending request (`isLoading`
false, which is when the button "New Analysis" is enabled), after
`resetAnalysis` the state is Idle: no file, empty `fileName`, null score, empty
results, null error, null details, no loading view; and the value of the file
input is the empty string. -/
theorem resetAnalysis_idle (st : AppState) (v : JsString) (h : st.isLoading = false) :
    isIdle (resetAnalysis st ⟨some v⟩).1 ∧
    (resetAnalysis st ⟨some v⟩).1 = initialState ∧
    (resetAnalysis st ⟨some v⟩).2.fileInput = some [] := by
  refine ⟨⟨rfl, rfl, rfl, rfl, rfl, rfl, h⟩, ?_, rfl⟩
  simp [resetAnalysis, initialState, h]

/-- C7, amended, at the state that shows the report of `thesis.pdf`. -/
theorem resetAnalysis_idle_witness :
    reportThesis.isLoading = false ∧
    (resetAnalysis reportThesis ⟨some (utf16 "C:\\fakepath\\thesis.pdf")⟩).1 = initialState ∧
    (resetAnalysis reportThesis ⟨some (utf16 "C:\\fakepath\\thesis.pdf")⟩).2.fileInput =
      some [] :=
  ⟨rfl, (resetAnalysis_idle reportThesis (utf16 "C:\\fakepath\\thesis.pdf") rfl).2⟩

/-! ## The views of the reachable states -/

theorem step_loadingClean (st st' : AppState) (e : Event)
    (hstep : step st e = some st') : LoadingClean st' := by
  cases e with
  | fileChange f =>
    simp only [step, fileInputEnabled] at hstep
    cases hl : st.isLoading
    · simp only [hl, Bool.not_false, if_true, Option.some.injEq] at hstep
      subst hstep
      intro h'
      cases f with
      | none => simp [handleFileChange, hl] at h'
      | some f =>
        by_cases hv : isValidType f.name = true
        · simp [handleFileChange, hv, hl] at h'
        · simp [handleFileChange, hv, hl] at h'
    · simp [hl] at hstep
  | submit =>
    simp only [step, analyzeEnabled] at hstep
    cases hf : st.file with
    | none => simp [hf] at hstep
    | some f =>
      cases hl : st.isLoading
      · simp only [hf, hl, Option.isNone_some, Bool.or_self, Bool.not_false, if_true,
          Option.some.injEq] at hstep
        subst hstep
        intro _
        simp [handleSubmitStart, hf]
      · simp [hf, hl] at hstep
  | resolved data t =>
    simp only [step] at hstep
    cases hl : st.isLoading
    · simp [hl] at hstep
    · simp only [hl, if_true, Option.some.injEq] at hstep
      subst hstep
      intro h'
      cases hn : isNullish data
      · rw [handleSubmitResolved_of_payload st data t hn] at h'
        simp at h'
      · rw [handleSubmitResolved_of_nullish st data t hn] at h'
        simp at h'
  | rejected err =>
    simp only [step] at hstep
    cases hl : st.isLoading
    · simp [hl] at hstep
    · simp only [hl, if_true, Option.some.injEq] at hstep
      subst hstep
      intro h'
      simp [handleSubmitRejected] at h'
  | reset =>
    simp only [step, resetEnabled] at hstep
    cases hl : st.isLoading
    · by_cases hg : (st.file.isSome || notNull st.score) = true
      · simp only [hg, hl, Bool.not_false, Bool.and_self, if_true, Option.some.injEq] at hstep
        subst hstep
        intro _
        rfl
      · simp [hg, hl] at hstep
    · simp [hl] at hstep

theorem run_loadingClean (es : List Event) (st st' : AppState)
    (hst : LoadingClean st) (hrun : run st es = some st') : LoadingClean st' := by
  induction es generalizing st with
  | nil =>
    simp only [run, Option.some.injEq] at hrun
    exact hrun ▸ hst
  | cons e es ih =>
    simp only [run] at hrun
    cases hs : step st e with
    | none => simp [hs] at hrun
    | some st₁ =>
      simp only [hs, Option.some_bind] at hrun
      exact ih st₁ (step_loadingClean st st₁ e hs) hrun

/-- C8 as stated fails after four events: `thesis.pdf` is selected, analysed
and reported with score 42, then `setup.exe` is selected; the selection is
refused with an error while the score stays, so the error view and the results
view are rendered together. -/
theorem error_and_results_together :
    ∃ st, Reachable st ∧ errorView st = true ∧ resultsView st = true ∧
      loadingView st = false :=
  ⟨handleFileChange reportThesis (some setupExe),
   ⟨[.fileChange (some thesisPdf), .submit,
     .resolved (.obj [(utf16 "overall_score", .num 42)]) (utf16 "1.25 seconds"),
     .fileChange (some setupExe)], rfl⟩,
   rfl, rfl, rfl⟩

/-- C8, amended: in every state reachable from the initial state by file
selections, submissions that succeed or fail, and resets, the loading view is
rendered together with neither the error view nor the results view. -/
theorem loading_view_exclusive (st : AppState) (h : Reachable st) :
    ¬ (loadingView st = true ∧ errorView st = true) ∧
    ¬ (loadingView st = true ∧ resultsView st = true) := by
  obtain ⟨es, hes⟩ := h
  have hinv : LoadingClean st :=
    run_loadingClean es initialState st (fun h0 => by cases h0) hes
  constructor
  · rintro ⟨hl, he⟩
    have hnull := hinv hl
    simp [errorView, hnull, truthy] at he
  · rintro ⟨hl, hr⟩
    have hl' : st.isLoading = true := hl
    simp [resultsView, hl'] at hr

/-- C8, amended, at the state in which the analysis of `thesis.pdf` is
pending: only the loading view is rendered. -/
theorem loading_view_exclusive_witness :
    Reachable loadingThesis ∧ loadingView loadingThesis = true ∧
    ¬ (loadingView loadingThesis = true ∧ errorView loadingThesis = true) ∧
    ¬ (loadingView loadingThesis = true ∧ resultsView loadingThesis = true) :=
  ⟨⟨[.fileChange (some thesisPdf), .submit], rfl⟩, rfl,
   loading_view_exclusive loadingThesis ⟨[.fileChange (some thesisPdf), .submit], rfl⟩⟩

/-! ## The extension check of handleFileChange -/

/-- C1 as stated fails at the name `.pdf`, its own example: the substring after
the last `.`, lower-cased, is `pdf`, which is on the allow-list, and
`handleFileChange` refuses the file with the invalid-type message. -/
theorem handleFileChange_rejects_dot_pdf :
    specExtension (utf16 ".pdf") = utf16 "pdf" ∧
    specExtension (utf16 ".pdf") ∈ allowedExtensions ∧
    fileExtension (utf16 ".pdf") = [] ∧
    (handleFileChange initialState (some ⟨utf16 ".pdf", [37, 80, 68, 70]⟩)).file = none ∧
    (handleFileChange initialState (some ⟨utf16 ".pdf", [37, 80, 68, 70]⟩)).error =
      .str (utf16 "Please upload a PDF, DOC, DOCX, or TXT file.") :=
  ⟨by decide, by decide, by decide, rfl, rfl⟩

/-- C1, amended: for every file name (shorter than 2³¹ units, and without
U+0130, the one unit whose lower case is two units), `handleFileChange` accepts
the file, setting `file` and `fileName` to it and `error` to null, if the last
`.` of the name is not its first unit and the substring after that `.`,
lower-cased, is one of pdf, doc, docx, txt; for every other name it leaves the
selection as it was and sets `error` to the invalid-type message. -/
theorem handleFileChange_accepts_iff (st : AppState) (f : JsFile)
    (hlen : f.name.length < 2 ^ 31) (hI : 0x130 ∉ f.name) :
    ((1 ≤ lastIndexOf dot f.name ∧ specExtension f.name ∈ allowedExtensions) →
      handleFileChange st (some f) =
        { st with file := some f, fileName := f.name, error := .null }) ∧
    (¬ (1 ≤ lastIndexOf dot f.name ∧ specExtension f.name ∈ allowedExtensions) →
      handleFileChange st (some f) =
        { st with error := .str (utf16 "Please upload a PDF, DOC, DOCX, or TXT file.") }) := by
  have hiff := isValidType_iff_spec f.name hlen hI
  constructor
  · intro h
    have hv : isValidType f.name = true := hiff.2 h
    simp [handleFileChange, hv]
  · intro h
    have hv : isValidType f.name = false := by
      cases hb : isValidType f.name
      · rfl
      · exact absurd (hiff.1 hb) h
    simp only [handleFileChange, hv, Bool.not_false, if_true]
    rfl

/-- C1, amended, at the name `Thesis.PDF`: the last `.` is at index 6 and the
lower-cased extension is `pdf`, so the file is accepted. -/
theorem handleFileChange_accepts_iff_witness :
    (utf16 "Thesis.PDF").length < 2 ^ 31 ∧ 0x130 ∉ utf16 "Thesis.PDF" ∧
    lastIndexOf dot (utf16 "Thesis.PDF") = 6 ∧
    specExtension (utf16 "Thesis.PDF") = utf16 "pdf" ∧
    handleFileChange initialState (some ⟨utf16 "Thesis.PDF", [37, 80, 68, 70]⟩) =
      { initialState with file := some ⟨utf16 "Thesis.PDF", [37, 80, 68, 70]⟩,
                          fileName := utf16 "Thesis.PDF", error := .null } :=
  ⟨by decide, by decide, by decide, by decide,
   (handleFileChange_accepts_iff initialState ⟨utf16 "Thesis.PDF", [37, 80, 68, 70]⟩
      (by decide) (by decide)).1 ⟨by decide, by decide⟩⟩

/-- The offset is computed on the name and applied to its lower-casing: at the
name `İ.pdf` (U+0130 first) the lower-cased name is one unit longer, the slice
starts at the `.`, and the file is refused. -/
theorem handleFileChange_rejects_dotted_capital_I :
    fileExtension [0x130, 46, 112, 100, 102] = utf16 ".pdf" ∧
    isValidType [0x130, 46, 112, 100, 102] = false :=
  ⟨by decide, by decide⟩

/-- C10: for every file name without a `.` (of any length a string of an
engine can have, which is below 2³¹ units; the empty name included) the
computed extension is the empty string, and `handleFileChange` sets the
invalid-type error and leaves the selected file and its name as they were. -/
theorem handleFileChange_no_dot (st : AppState) (f : JsFile)
    (hdot : dot ∉ f.name) (hlen : f.name.length < 2 ^ 31) :
    fileExtension f.name = [] ∧
    handleFileChange st (some f) =
      { st with error := .str (utf16 "Please upload a PDF, DOC, DOCX, or TXT file.") } ∧
    (handleFileChange st (some f)).file = st.file ∧
    (handleFileChange st (some f)).fileName = st.fileName := by
  have hext := fileExtension_of_no_dot f.name hdot hlen
  have hv : isValidType f.name = false := by
    cases hb : isValidType f.name
    · rfl
    · have := (isValidType_iff f.name).1 hb
      rw [hext] at this
      exact absurd this nil_not_allowed
  have hstate : handleFileChange st (some f) =
      { st with error := .str (utf16 "Please upload a PDF, DOC, DOCX, or TXT file.") } := by
    simp only [handleFileChange, hv, Bool.not_false, if_true]
    rfl
  refine ⟨hext, hstate, ?_, ?_⟩
  · rw [hstate]
  · rw [hstate]

/-- C10 at the names `README` and `pdf`, selected while `thesis.pdf` is the
selection: neither has a `.`, the offset is 2³², past the end of either name,
so the extension is empty (not `readme`, not `pdf`), the error is set and
`thesis.pdf` stays selected. -/
theorem handleFileChange_no_dot_witness :
    dot ∉ utf16 "README" ∧ (utf16 "README").length < 2 ^ 31 ∧
    fileExtension (utf16 "README") = [] ∧
    handleFileChange reportThesis (some ⟨utf16 "README", [35, 32]⟩) =
      { reportThesis with
        error := .str (utf16 "Please upload a PDF, DOC, DOCX, or TXT file.") } ∧
    (handleFileChange reportThesis (some ⟨utf16 "README", [35, 32]⟩)).file = some thesisPdf ∧
    dot ∉ utf16 "pdf" ∧
    fileExtension (utf16 "pdf") = [] ∧
    handleFileChange reportThesis (some ⟨utf16 "pdf", [37, 80, 68, 70]⟩) =
      { reportThesis with
        error := .str (utf16 "Please upload a PDF, DOC, DOCX, or TXT file.") } :=
  ⟨by decide, by decide,
   (handleFileChange_no_dot reportThesis ⟨utf16 "README", [35, 32]⟩
      (by decide) (by decide)).1,
   (handleFileChange_no_dot reportThesis ⟨utf16 "README", [35, 32]⟩
      (by decide) (by decide)).2.1,
   (handleFileChange_no_dot reportThesis ⟨utf16 "README", [35, 32]⟩
      (by decide) (by decide)).2.2.1.trans rfl,
   by decide,
   (handleFileChange_no_dot reportThesis ⟨utf16 "pdf", [37, 80, 68, 70]⟩
      (by decide) (by decide)).1,
   (handleFileChange_no_dot reportThesis ⟨utf16 "pdf", [37, 80, 68, 70]⟩
      (by decide) (by decide)).2.1⟩

end PlagiarismApp
